import Mathlib

/-!
Verification of the agent-executor reasoning loop and the conversational
memory strategies of the `my_framework` package, as implemented in
`src/my_framework/agents/executor.py` and `src/my_framework/memory/types.py`.

Strings are modelled as `List Char` (Lean `String`s are converted at the
boundary).  The two `re.search` calls of `executor.py` are embedded with
Python's leftmost-match and backtracking semantics, which were traced by hand
for the two concrete patterns involved:

* `re.search(r"Final Answer:\s*(.*)", s, re.DOTALL)` followed by
  `.group(1).strip()` yields `strip` of everything after the first occurrence
  of the literal `"Final Answer:"` (the greedy `\s*` only removes leading
  whitespace, which `strip` removes anyway), and fails iff the literal does
  not occur.
* `re.search(r"Action:\s*(.*?)\nAction Input:\s*(.*)", s, re.DOTALL)`:
  the whole pattern matches at the first index `i` where the literal
  `"Action:"` occurs and the literal `"\nAction Input:"` occurs at some index
  `>= i + 7`.  Backtracking order (greedy `\s*` first, then lazy `(.*?)`)
  selects, as the separator occurrence, the first occurrence of
  `"\nAction Input:"` at or after the end of the maximal whitespace run that
  follows `"Action:"`; only when no such occurrence exists does the engine
  backtrack into the whitespace run, where the only possible occurrence
  starts at the last character of the run (a `'\n'` directly followed by
  `"Action Input:"`).  `group(1).strip()` is then `strip` of the text between
  the two literals and `group(2).strip()` is `strip` of everything after the
  separator literal, running to the END of the text (the greedy DOTALL
  `(.*)` never stops at an `"Observation:"` marker).
-/

namespace MyFramework

/-- Python's `str.strip()` whitespace class, restricted to ASCII
(`' '`, `'\t'`, `'\n'`, `'\r'`, `'\x0b'`, `'\x0c'`); all text handled by the
claims is ASCII. -/
def isPySpace (c : Char) : Bool :=
  c = ' ' || c = '\t' || c = '\n' || c = '\r' || c = '\x0b' || c = '\x0c'

/-- Python's `str.strip()`: remove leading and trailing whitespace. -/
def pyStrip (l : List Char) : List Char :=
  ((l.dropWhile isPySpace).reverse.dropWhile isPySpace).reverse

/-- `startsWith pat l` holds when `pat` is an initial segment of `l`. -/
def startsWith : List Char → List Char → Bool
  | [], _ => true
  | _ :: _, [] => false
  | p :: ps, c :: cs => p = c && startsWith ps cs

/-- Index (relative to the supplied offset `i`) of the first occurrence of
`pat` in the text, scanning left to right. -/
def firstOccAux (pat : List Char) : List Char → Nat → Option Nat
  | [], i => if startsWith pat [] then some i else none
  | c :: rest, i =>
    if startsWith pat (c :: rest) then some i else firstOccAux pat rest (i + 1)

/-- Index of the first occurrence of `pat` in `l`, if any. -/
def firstOcc (pat l : List Char) : Option Nat :=
  firstOccAux pat l 0

/-- Whether `pat` occurs somewhere in `l` (Python's `pat in l`). -/
def containsSub (pat l : List Char) : Bool :=
  (firstOcc pat l).isSome

/-- The literal searched for by the final-answer branch of the parser. -/
def finalAnswerMarker : List Char := "Final Answer:".data

/-- The literal searched for by the action branch of the parser. -/
def actionMarker : List Char := "Action:".data

/-- The separator literal between the action name and the action input. -/
def actionInputMarker : List Char := "\nAction Input:".data

/-- Embedding of
`re.search(r"Final Answer:\s*(.*)", llm_output, re.DOTALL)` followed by
`.group(1).strip()` (`executor.py`, PARSE step): `strip` of everything after
the first `"Final Answer:"` occurrence, to the end of the text. -/
def finalAnswerParse (l : List Char) : Option (List Char) :=
  (firstOcc finalAnswerMarker l).map fun i => pyStrip (l.drop (i + 13))

/-- Start index of the overall match of
`re.search(r"Action:\s*(.*?)\nAction Input:\s*(.*)", s, re.DOTALL)`:
the first index where `"Action:"` occurs such that `"\nAction Input:"`
occurs at or after the end of that literal. -/
def actionStartAux : List Char → Nat → Option Nat
  | [], _ => none
  | c :: rest, i =>
    if startsWith actionMarker (c :: rest)
        && (firstOcc actionInputMarker ((c :: rest).drop 7)).isSome
    then some i
    else actionStartAux rest (i + 1)

/-- Embedding of the action branch of the PARSE step
(`re.search(r"Action:\s*(.*?)\nAction Input:\s*(.*)", llm_output, re.DOTALL)`
with `.group(1).strip()` and `.group(2).strip()`), with Python's
backtracking semantics as documented in the file header: returns
`(action_name, action_input)`. -/
def actionParse (l : List Char) : Option (List Char × List Char) :=
  match actionStartAux l 0 with
  | none => none
  | some i =>
    let rest := l.drop (i + 7)
    let wlen := (rest.takeWhile isPySpace).length
    let o :=
      match firstOcc actionInputMarker (rest.drop wlen) with
      | some j => wlen + j
      | none => wlen - 1
    some (pyStrip (rest.take o), pyStrip (rest.drop (o + 14)))

/-- Modelled from the spec: `core/schemas.py` is not under `src/`.  §2/§3:
"Message: role-tagged text units (system/human/assistant), immutable once
constructed." -/
inductive Role
  | system
  | human
  | ai
deriving DecidableEq, Repr

/-- Modelled from the spec: a role-tagged immutable text unit (§3). -/
structure Message where
  role : Role
  content : String
deriving DecidableEq, Repr

/-- `SystemMessage(content=...)` of `core/schemas.py` (modelled from the spec). -/
def SystemMessage (content : String) : Message := ⟨Role.system, content⟩

/-- `HumanMessage(content=...)` of `core/schemas.py` (modelled from the spec). -/
def HumanMessage (content : String) : Message := ⟨Role.human, content⟩

/-- `AIMessage(content=...)` of `core/schemas.py` (modelled from the spec). -/
def AIMessage (content : String) : Message := ⟨Role.ai, content⟩

/-- Modelled from the spec: `agents/tools.py` is not under `src/`.  §3/§4.4/§6:
a tool is `{name, description, call: (args) -> string}` wrapping a plain
function; the executor calls `tool.run(action_input)` with the single parsed
action-input string.  An exception raised while the tool runs is modelled as
`Except.error` carrying the exception text `str(e)`; a normal return is
`Except.ok`. -/
structure BaseTool where
  name : String
  description : String
  run : String → Except String String

/-- The `DEFAULT_AGENT_PROMPT_TEMPLATE` literal of `executor.py` (a Python
triple-quoted string beginning and ending with a newline). -/
def DEFAULT_AGENT_PROMPT_TEMPLATE : String :=
  "\nYou are a helpful assistant that has access to the following tools.\nRespond to the user\x27s query by reasoning about the problem and using the tools\nto find the answer.\n\nHere are the available tools:\n{tools}\n\nUse the following format for your response:\n\nThought: you should always think about what to do\nAction: the action to take, should be one of [{tool_names}]\nAction Input: the input to the action\nObservation: the result of the action\n... (this Thought/Action/Action Input/Observation can repeat N times)\nThought: I now know the final answer\nFinal Answer: the final answer to the original input question\n\nBegin!\n\nUser Query: {input}\nAgent Scratchpad: {agent_scratchpad}\n"

/-- The keyword mapping supplied to `prompt_template.format(...)` in
`invoke`: `tools`, `tool_names`, `input`, `agent_scratchpad`. -/
def fieldEnv (toolsStr toolNames userInput scratch : String) : String → Option String :=
  fun nm =>
    if nm = "tools" then some toolsStr
    else if nm = "tool_names" then some toolNames
    else if nm = "input" then some userInput
    else if nm = "agent_scratchpad" then some scratch
    else none

/-- Embedding of Python `str.format` for templates whose replacement fields
are plain names and which contain no brace escapes (true of
`DEFAULT_AGENT_PROMPT_TEMPLATE`).  A field name absent from the mapping
renders as empty here; Python raises `KeyError` there, a case no claim
exercises.  The `fuel` argument is an upper bound on the number of steps
(each step consumes at least one character). -/
def formatFieldsAux (env : String → Option String) : Nat → List Char → List Char
  | 0, _ => []
  | _ + 1, [] => []
  | fuel + 1, c :: rest =>
    if c = '\x7b' then
      let nm := rest.takeWhile fun d => d ≠ '\x7d'
      let rest2 := (rest.dropWhile fun d => d ≠ '\x7d').drop 1
      (match env (String.mk nm) with
       | some v => v.data
       | none => []) ++ formatFieldsAux env fuel rest2
    else
      c :: formatFieldsAux env fuel rest

/-- `prompt_template.format(tools=..., tool_names=..., input=...,
agent_scratchpad=...)` from `invoke` (`executor.py`). -/
def formatPrompt (template toolsStr toolNames userInput scratch : String) : String :=
  String.mk
    (formatFieldsAux (fieldEnv toolsStr toolNames userInput scratch)
      (template.data.length + 1) template.data)

/-- `AgentExecutor` field model (`executor.py`): the pydantic model holds the
chat model, the tool list, an optional custom prompt template and the
iteration cap.  The chat model stub is a function from the number of
previous calls in this `invoke` and the message list to the reply content
(the `.content` of the returned `AIMessage`), which models any deterministic
(possibly stateful) stub.  Pydantic construction validates field types only;
`executor.py` contains no further validation, in particular no check on tool
names. -/
structure AgentExecutor where
  llm : Nat → List Message → String
  tools : List BaseTool
  system_prompt : Option String := none
  max_iterations : Nat := 5

/-- `AgentExecutor._format_tools`: `"\n".join("- {name}: {description}")`. -/
def formatTools (tools : List BaseTool) : String :=
  String.intercalate "\n" (tools.map fun t => "- " ++ t.name ++ ": " ++ t.description)

/-- `AgentExecutor._get_tool_by_name`: linear scan returning the first tool
whose name equals `name`, else `None`. -/
def getToolByName (tools : List BaseTool) (name : String) : Option BaseTool :=
  match tools with
  | [] => none
  | t :: rest => if t.name == name then some t else getToolByName rest name

/-- `input.get("input", "")` on the `invoke` argument, modelled as an
association list of string keys to string values. -/
def dictGet (d : List (String × String)) (k : String) : String :=
  match d.find? (fun p => p.1 == k) with
  | some p => p.2
  | none => ""

/-- The `for i in range(self.max_iterations)` loop body of
`AgentExecutor.invoke` (`executor.py`), embedded as structural recursion on
the remaining iteration budget.  Besides the Python return value the
embedding also accumulates, as an observational ghost, the list of rendered
`prompt_content` strings sent to the chat model, in call order (`prompts` is
the reversed accumulator).  Falling out of the loop returns the
iteration-limit sentinel; a `Final Answer:` match returns the stripped text
after the marker (checked before the action branch); an action match
dispatches the tool, catches any tool exception, and appends
`llm_output + "\nObservation: " + observation + "\n"` to the scratchpad; a
reply matching neither pattern returns the malformed-output sentinel. -/
def AgentExecutor.loop (ex : AgentExecutor)
    (userInput toolNames toolsStr template : String) :
    Nat → Nat → String → List String → String × List String
  | 0, _, _, prompts => ("Agent stopped after reaching max iterations.", prompts.reverse)
  | fuel + 1, callIdx, scratch, prompts =>
    let promptContent := formatPrompt template toolsStr toolNames userInput scratch
    let llmOutput :=
      ex.llm callIdx [SystemMessage "You are an AI agent.", HumanMessage promptContent]
    match finalAnswerParse llmOutput.data with
    | some ans => (String.mk ans, (promptContent :: prompts).reverse)
    | none =>
      match actionParse llmOutput.data with
      | some (nm, inp) =>
        let actionName := String.mk nm
        let actionInput := String.mk inp
        let observation :=
          match getToolByName ex.tools actionName with
          | some tool =>
            match tool.run actionInput with
            | Except.ok obs => obs
            | Except.error e => "Error executing tool " ++ actionName ++ ": " ++ e
          | none => "Error: Tool \x27" ++ actionName ++ "\x27 not found."
        AgentExecutor.loop ex userInput toolNames toolsStr template fuel (callIdx + 1)
          (scratch ++ llmOutput ++ "\nObservation: " ++ observation ++ "\n")
          (promptContent :: prompts)
      | none =>
        ("Agent failed to produce a valid action or final answer.",
          (promptContent :: prompts).reverse)

/-- `AgentExecutor.invoke` with its ghost trace: the headers of the method
(`user_input`, `tool_names`, `tools_str`, template selection) followed by
the loop, started with an empty scratchpad and call count `0`. -/
def AgentExecutor.invokeTrace (ex : AgentExecutor) (input : List (String × String)) :
    String × List String :=
  AgentExecutor.loop ex (dictGet input "input")
    (String.intercalate ", " (ex.tools.map BaseTool.name))
    (formatTools ex.tools)
    (ex.system_prompt.getD DEFAULT_AGENT_PROMPT_TEMPLATE)
    ex.max_iterations 0 "" []

/-- `AgentExecutor.invoke` (`executor.py`): the returned string. -/
def AgentExecutor.invoke (ex : AgentExecutor) (input : List (String × String)) : String :=
  (ex.invokeTrace input).1

/-- State-passing embedding of the method call `ex.invoke(input)` on a
mutable object: the Python method body contains no assignment to any `self`
field, so the receiver after the call is the receiver before it. -/
def AgentExecutor.invokeStep (ex : AgentExecutor) (input : List (String × String)) :
    String × AgentExecutor :=
  (ex.invoke input, ex)

/-- `next(iter(d.values()))` on the `inputs` / `outputs` dictionaries of
`save_context` (`memory/types.py`): the first value of the mapping.  Python
raises `StopIteration` on an empty mapping — a case no claim exercises;
here it renders as `""`. -/
def firstValue (d : List (String × String)) : String :=
  (d.head?.map Prod.snd).getD ""

/-- The two `append` calls shared by the buffer and window `save_context`
bodies: push `HumanMessage(user_input)` then `AIMessage(ai_output)` onto the
referenced history list. -/
def memAppendTurn (hist : List Message) (userInput aiOutput : String) : List Message :=
  hist ++ [HumanMessage userInput, AIMessage aiOutput]

/-- One bounded unrolling of
`while len(self.chat_history) > self.k * 2: self.chat_history.pop(0)`
(`ConversationBufferWindowMemory.save_context`): each pass of the `while`
loop removes the front element, so the loop runs at most `len(chat_history)`
times; the `fuel` argument carries that bound structurally. -/
def trimWindowAux (k : Nat) : Nat → List Message → List Message
  | 0, hist => hist
  | fuel + 1, hist =>
    if k * 2 < hist.length then trimWindowAux k fuel (hist.drop 1) else hist

/-- The `while` trimming loop of `ConversationBufferWindowMemory.save_context`,
run to completion (the list length bounds the number of passes). -/
def trimWindow (k : Nat) (hist : List Message) : List Message :=
  trimWindowAux k hist.length hist

/-- Python `l[-n:]` for a nonnegative `n`: the whole list when `n = 0`
(`-0 == 0` starts the slice at the front), otherwise the last `n` elements
(all of them when `n ≥ len(l)`). -/
def pyNegSlice {α : Type} (n : Nat) (l : List α) : List α :=
  if n = 0 then l else l.drop (l.length - n)

/-- `ConversationBufferWindowMemory.save_context`, viewed through the history
list the instance references: append the turn, then trim from the front
while longer than `k * 2`. -/
def windowSaveContext (k : Nat) (hist : List Message)
    (inputs outputs : List (String × String)) : List Message :=
  trimWindow k (memAppendTurn hist (firstValue inputs) (firstValue outputs))

/-- `ConversationBufferWindowMemory.load_memory_variables`: the mapping
`{self.memory_key: self.chat_history[-(self.k * 2):]}` with
`memory_key = "history"` inherited from `BaseMemory`. -/
def windowLoadMemoryVariables (k : Nat) (hist : List Message) :
    List (String × List Message) :=
  [("history", pyNegSlice (k * 2) hist)]

/-- `ConversationBufferMemory.save_context`, viewed through the referenced
history list: unbounded append of the turn. -/
def bufferSaveContextList (hist : List Message)
    (inputs outputs : List (String × String)) : List Message :=
  memAppendTurn hist (firstValue inputs) (firstValue outputs)

/-- `ConversationBufferMemory` (and likewise `ConversationBufferWindowMemory`)
is a plain class — `BaseMemory` derives from `ABC`, not a pydantic model, and
neither class defines `__init__` — so the annotated assignment
`chat_history: List[MessageType] = []` creates ONE list object stored on the
class.  An instance that has never run `clear` has no `chat_history` entry in
its instance dictionary; attribute lookup falls back to the class attribute,
so `self.chat_history.append(...)` in `save_context` mutates the single list
shared by every such instance.  Only `clear`'s assignment
`self.chat_history = []` installs a fresh per-instance list.  This state
records the shared class-level list and, per instance id, the optional
instance-level list. -/
structure MemClassState where
  classList : List Message
  instOwn : List (Option (List Message))
deriving DecidableEq, Repr

/-- Python attribute lookup for `self.chat_history` on instance `i`: the
instance attribute when present (set only by `clear`), else the shared class
attribute. -/
def bufGetHistory (st : MemClassState) (i : Nat) : List Message :=
  match st.instOwn.getD i none with
  | some l => l
  | none => st.classList

/-- `ConversationBufferMemory.save_context` on instance `i`: the two
`append` calls mutate whichever list object `self.chat_history` resolves to
— the instance's own list after a `clear`, otherwise the shared class-level
list. -/
def bufSaveContext (st : MemClassState) (i : Nat)
    (inputs outputs : List (String × String)) : MemClassState :=
  match st.instOwn.getD i none with
  | some l =>
    { st with instOwn :=
        st.instOwn.set i (some (memAppendTurn l (firstValue inputs) (firstValue outputs))) }
  | none =>
    { st with classList := memAppendTurn st.classList (firstValue inputs) (firstValue outputs) }

/-- `ConversationBufferMemory.load_memory_variables` on instance `i`:
`{"history": self.chat_history}`. -/
def bufLoadMemoryVariables (st : MemClassState) (i : Nat) :
    List (String × List Message) :=
  [("history", bufGetHistory st i)]

/-- `ConversationBufferMemory.clear` on instance `i`: the assignment
`self.chat_history = []` installs a fresh empty per-instance list. -/
def bufClear (st : MemClassState) (i : Nat) : MemClassState :=
  { st with instOwn := st.instOwn.set i (some []) }

/-- The module-level state after importing `memory/types.py` and
constructing two `ConversationBufferMemory` instances: the class attribute is
the empty list and neither instance has an instance-level `chat_history`. -/
def twoFreshBuffers : MemClassState :=
  { classList := [], instOwn := [none, none] }

/-! ### Concrete stubs and executors used by individual claims -/

/-- A chat-model stub whose single reply carries neither marker, on an
executor with `max_iterations = 2`. -/
def exC1bad : AgentExecutor :=
  { llm := fun _ _ => "hello", tools := [], max_iterations := 2 }

/-- A chat-model stub that always requests an action and never emits
`Final Answer:`, on an executor with `max_iterations = 3` and no tools. -/
def exC1act : AgentExecutor :=
  { llm := fun _ _ => "Action: search\nAction Input: q", tools := [], max_iterations := 3 }

/-- The registered `echo` tool: returns its input verbatim. -/
def echoTool : BaseTool :=
  { name := "echo", description := "returns its input verbatim", run := fun s => Except.ok s }

/-- A stub that answers `"Final Answer: 42"` on every call. -/
def exC2 : AgentExecutor :=
  { llm := fun _ _ => "Final Answer: 42", tools := [] }

/-- A stub whose reply carries both an action request and a
`Final Answer:` marker, with the `echo` tool registered. -/
def exC2both : AgentExecutor :=
  { llm := fun _ _ => "Action: echo\nAction Input: hi\nFinal Answer: 42", tools := [echoTool] }

/-- The two-turn stub of the scratchpad scenario: first an `echo` action,
then a final answer. -/
def exC3 : AgentExecutor :=
  { llm := fun n _ => if n = 0 then "Action: echo\nAction Input: hi" else "Final Answer: done"
    tools := [echoTool] }

/-- A stub that always requests the unregistered action `missing_tool`. -/
def exC4miss : AgentExecutor :=
  { llm := fun _ _ => "Action: missing_tool\nAction Input: z", tools := [] }

/-- A tool whose wrapped function always raises. -/
def failTool : BaseTool :=
  { name := "boom", description := "always raises"
    run := fun _ => Except.error "ValueError: kaboom" }

/-- A stub that always requests the registered but always-raising tool. -/
def exC4fail : AgentExecutor :=
  { llm := fun _ _ => "Action: boom\nAction Input: z", tools := [failTool] }

/-- A stub whose replies never match either parser pattern. -/
def exC5 : AgentExecutor :=
  { llm := fun _ _ => "I am not sure what to do.", tools := [], max_iterations := 4 }

/-- First tool registered under the duplicated name `dup`. -/
def dupToolA : BaseTool :=
  { name := "dup", description := "first registration", run := fun _ => Except.ok "from-first" }

/-- Second tool registered under the duplicated name `dup`. -/
def dupToolB : BaseTool :=
  { name := "dup", description := "second registration", run := fun _ => Except.ok "from-second" }

/-- An executor constructed with two tools sharing the name `dup`: the
field assignment succeeds, there being no uniqueness validation anywhere in
`executor.py` (pydantic checks field types only). -/
def exC8 : AgentExecutor :=
  { llm := fun n _ => if n = 0 then "Action: dup\nAction Input: x" else "Final Answer: done"
    tools := [dupToolA, dupToolB] }

/-! ### Helper lemmas -/

theorem firstOccAux_isSome_eq (pat : List Char) :
    ∀ (l : List Char) (i j : Nat),
      (firstOccAux pat l i).isSome = (firstOccAux pat l j).isSome := by
  intro l
  induction l with
  | nil =>
    intro i j
    by_cases hc : startsWith pat [] = true <;> simp [firstOccAux, hc]
  | cons c rest ih =>
    intro i j
    by_cases hc : startsWith pat (c :: rest) = true
    · simp [firstOccAux, hc]
    · simp only [firstOccAux, hc, if_false, Bool.false_eq_true, if_neg, not_false_iff]
      exact ih (i + 1) (j + 1)

theorem containsSub_cons (pat : List Char) (c : Char) (rest : List Char) :
    containsSub pat (c :: rest)
      = (startsWith pat (c :: rest) || containsSub pat rest) := by
  by_cases hc : startsWith pat (c :: rest) = true
  · simp [containsSub, firstOcc, firstOccAux, hc]
  · simp only [containsSub, firstOcc, firstOccAux, hc, if_false, Bool.false_eq_true, if_neg,
      not_false_iff, Bool.false_or]
    exact firstOccAux_isSome_eq pat rest 1 0

/-- If `pat` occurs in `t` then it occurs in `s ++ t`. -/
theorem containsSub_append_right (pat s t : List Char) (h : containsSub pat t = true) :
    containsSub pat (s ++ t) = true := by
  induction s with
  | nil => simpa using h
  | cons c cs ih =>
    rw [List.cons_append, containsSub_cons, ih]
    simp

/-- The ghost trace only grows as the loop runs. -/
theorem loop_trace_length_le (ex : AgentExecutor) (u tn ts tpl : String) :
    ∀ (fuel ci : Nat) (scratch : String) (prompts : List String),
      prompts.length ≤ (AgentExecutor.loop ex u tn ts tpl fuel ci scratch prompts).2.length := by
  intro fuel
  induction fuel with
  | zero => intro ci scratch prompts; simp [AgentExecutor.loop]
  | succ fuel ih =>
    intro ci scratch prompts
    rw [AgentExecutor.loop]
    split
    · simp
    · split
      · exact le_trans (by simp) (ih (ci + 1) _ _)
      · simp

/-- With at least one iteration of budget the loop sends at least one model
call. -/
theorem loop_trace_length_succ_le (ex : AgentExecutor) (u tn ts tpl : String)
    (fuel ci : Nat) (scratch : String) (prompts : List String) :
    prompts.length + 1
      ≤ (AgentExecutor.loop ex u tn ts tpl (fuel + 1) ci scratch prompts).2.length := by
  rw [AgentExecutor.loop]
  split
  · simp
  · split
    · exact le_trans (by simp) (loop_trace_length_le ex u tn ts tpl fuel (ci + 1) _ _)
    · simp

/-- One loop step when the current reply carries a `Final Answer:` marker:
return the stripped text after the marker. -/
theorem loop_step_final (ex : AgentExecutor) (u tn ts tpl : String)
    (fuel ci : Nat) (scratch : String) (prompts : List String) (ans : List Char)
    (hf : finalAnswerParse (ex.llm ci [SystemMessage "You are an AI agent.",
        HumanMessage (formatPrompt tpl ts tn u scratch)]).data = some ans) :
    AgentExecutor.loop ex u tn ts tpl (fuel + 1) ci scratch prompts
      = (String.mk ans, (formatPrompt tpl ts tn u scratch :: prompts).reverse) := by
  rw [AgentExecutor.loop]
  simp only [hf]

/-- One loop step when the current reply matches neither pattern: return the
fixed malformed-output string. -/
theorem loop_step_malformed (ex : AgentExecutor) (u tn ts tpl : String)
    (fuel ci : Nat) (scratch : String) (prompts : List String)
    (hf : finalAnswerParse (ex.llm ci [SystemMessage "You are an AI agent.",
        HumanMessage (formatPrompt tpl ts tn u scratch)]).data = none)
    (ha : actionParse (ex.llm ci [SystemMessage "You are an AI agent.",
        HumanMessage (formatPrompt tpl ts tn u scratch)]).data = none) :
    AgentExecutor.loop ex u tn ts tpl (fuel + 1) ci scratch prompts
      = ("Agent failed to produce a valid action or final answer.",
          (formatPrompt tpl ts tn u scratch :: prompts).reverse) := by
  rw [AgentExecutor.loop]
  simp only [hf, ha]

/-- One loop step when the current reply parses as an action: whatever the
dispatch outcome, the loop continues into the next iteration with one more
prompt recorded. -/
theorem loop_step_action (ex : AgentExecutor) (u tn ts tpl : String)
    (fuel ci : Nat) (scratch : String) (prompts : List String) (nm inp : List Char)
    (hf : finalAnswerParse (ex.llm ci [SystemMessage "You are an AI agent.",
        HumanMessage (formatPrompt tpl ts tn u scratch)]).data = none)
    (ha : actionParse (ex.llm ci [SystemMessage "You are an AI agent.",
        HumanMessage (formatPrompt tpl ts tn u scratch)]).data = some (nm, inp)) :
    ∃ scratch2 : String,
      AgentExecutor.loop ex u tn ts tpl (fuel + 1) ci scratch prompts
        = AgentExecutor.loop ex u tn ts tpl fuel (ci + 1) scratch2
            (formatPrompt tpl ts tn u scratch :: prompts) := by
  rw [AgentExecutor.loop]
  simp only [hf, ha]
  exact ⟨_, rfl⟩

/-- One loop step for a parsed action whose name matches no registered tool:
the observation is the not-found message and the loop continues. -/
theorem loop_step_action_notfound (ex : AgentExecutor) (u tn ts tpl : String)
    (fuel ci : Nat) (scratch : String) (prompts : List String) (nm inp : List Char)
    (hf : finalAnswerParse (ex.llm ci [SystemMessage "You are an AI agent.",
        HumanMessage (formatPrompt tpl ts tn u scratch)]).data = none)
    (ha : actionParse (ex.llm ci [SystemMessage "You are an AI agent.",
        HumanMessage (formatPrompt tpl ts tn u scratch)]).data = some (nm, inp))
    (hnf : getToolByName ex.tools (String.mk nm) = none) :
    AgentExecutor.loop ex u tn ts tpl (fuel + 1) ci scratch prompts
      = AgentExecutor.loop ex u tn ts tpl fuel (ci + 1)
          (scratch
            ++ ex.llm ci [SystemMessage "You are an AI agent.",
                HumanMessage (formatPrompt tpl ts tn u scratch)]
            ++ "\nObservation: "
            ++ ("Error: Tool \x27" ++ String.mk nm ++ "\x27 not found.") ++ "\n")
          (formatPrompt tpl ts tn u scratch :: prompts) := by
  rw [AgentExecutor.loop]
  simp only [hf, ha, hnf]

/-- One loop step for a parsed action whose tool runs successfully: the
observation is the tool result and the loop continues. -/
theorem loop_step_action_ok (ex : AgentExecutor) (u tn ts tpl : String)
    (fuel ci : Nat) (scratch : String) (prompts : List String) (nm inp : List Char)
    (tool : BaseTool) (obs : String)
    (hf : finalAnswerParse (ex.llm ci [SystemMessage "You are an AI agent.",
        HumanMessage (formatPrompt tpl ts tn u scratch)]).data = none)
    (ha : actionParse (ex.llm ci [SystemMessage "You are an AI agent.",
        HumanMessage (formatPrompt tpl ts tn u scratch)]).data = some (nm, inp))
    (ht : getToolByName ex.tools (String.mk nm) = some tool)
    (hr : tool.run (String.mk inp) = Except.ok obs) :
    AgentExecutor.loop ex u tn ts tpl (fuel + 1) ci scratch prompts
      = AgentExecutor.loop ex u tn ts tpl fuel (ci + 1)
          (scratch
            ++ ex.llm ci [SystemMessage "You are an AI agent.",
                HumanMessage (formatPrompt tpl ts tn u scratch)]
            ++ "\nObservation: " ++ obs ++ "\n")
          (formatPrompt tpl ts tn u scratch :: prompts) := by
  rw [AgentExecutor.loop]
  simp only [hf, ha, ht, hr]

/-- One loop step for a parsed action whose tool raises: the exception is
caught, the observation is the tool-execution error message and the loop
continues. -/
theorem loop_step_action_error (ex : AgentExecutor) (u tn ts tpl : String)
    (fuel ci : Nat) (scratch : String) (prompts : List String) (nm inp : List Char)
    (tool : BaseTool) (e : String)
    (hf : finalAnswerParse (ex.llm ci [SystemMessage "You are an AI agent.",
        HumanMessage (formatPrompt tpl ts tn u scratch)]).data = none)
    (ha : actionParse (ex.llm ci [SystemMessage "You are an AI agent.",
        HumanMessage (formatPrompt tpl ts tn u scratch)]).data = some (nm, inp))
    (ht : getToolByName ex.tools (String.mk nm) = some tool)
    (hr : tool.run (String.mk inp) = Except.error e) :
    AgentExecutor.loop ex u tn ts tpl (fuel + 1) ci scratch prompts
      = AgentExecutor.loop ex u tn ts tpl fuel (ci + 1)
          (scratch
            ++ ex.llm ci [SystemMessage "You are an AI agent.",
                HumanMessage (formatPrompt tpl ts tn u scratch)]
            ++ "\nObservation: "
            ++ ("Error executing tool " ++ String.mk nm ++ ": " ++ e) ++ "\n")
          (formatPrompt tpl ts tn u scratch :: prompts) := by
  rw [AgentExecutor.loop]
  simp only [hf, ha, ht, hr]

/-- When every reply action-parses and never carries a `Final Answer:`
marker, the loop consumes its whole budget, returns the iteration-limit
sentinel, and records exactly one model call per budget unit. -/
theorem loop_all_action_sentinel (ex : AgentExecutor) (u tn ts tpl : String)
    (h : ∀ (n : Nat) (msgs : List Message),
        finalAnswerParse (ex.llm n msgs).data = none
          ∧ (actionParse (ex.llm n msgs).data).isSome = true) :
    ∀ (fuel ci : Nat) (scratch : String) (prompts : List String),
      (AgentExecutor.loop ex u tn ts tpl fuel ci scratch prompts).1
          = "Agent stopped after reaching max iterations."
        ∧ (AgentExecutor.loop ex u tn ts tpl fuel ci scratch prompts).2.length
          = prompts.length + fuel := by
  intro fuel
  induction fuel with
  | zero => intro ci scratch prompts; simp [AgentExecutor.loop]
  | succ fuel ih =>
    intro ci scratch prompts
    obtain ⟨pr, hpr⟩ := Option.isSome_iff_exists.mp
      (h ci [SystemMessage "You are an AI agent.",
        HumanMessage (formatPrompt tpl ts tn u scratch)]).2
    obtain ⟨nm, inp⟩ := pr
    obtain ⟨scratch2, hstep⟩ := loop_step_action ex u tn ts tpl fuel ci scratch prompts nm inp
      (h ci [SystemMessage "You are an AI agent.",
        HumanMessage (formatPrompt tpl ts tn u scratch)]).1 hpr
    rw [hstep]
    refine ⟨(ih (ci + 1) scratch2 _).1, ?_⟩
    rw [(ih (ci + 1) scratch2 _).2]
    simp
    omega

/-- Complete unrolling of the window-trimming `while` loop leaves at most
`k * 2` messages, provided the fuel covers the required number of passes. -/
theorem trimWindowAux_length_le (k : Nat) :
    ∀ (fuel : Nat) (hist : List Message), hist.length - k * 2 ≤ fuel →
      (trimWindowAux k fuel hist).length ≤ k * 2 := by
  intro fuel
  induction fuel with
  | zero =>
    intro hist hlen
    rw [trimWindowAux]
    omega
  | succ fuel ih =>
    intro hist hlen
    rw [trimWindowAux]
    split
    · apply ih
      simp
      omega
    · omega

/-- The trimmed history holds at most `k * 2` messages. -/
theorem trimWindow_length_le (k : Nat) (hist : List Message) :
    (trimWindow k hist).length ≤ k * 2 :=
  trimWindowAux_length_le k hist.length hist (by omega)

/-! ### Claims -/

set_option maxRecDepth 40000 in
/-- C1 counterexample: with `max_iterations = 2` and a stub whose reply
`"hello"` never contains a `Final Answer:` marker, `invoke` returns the
malformed-output string — not the iteration-limit sentinel — after a single
model call, so the claim as stated (sentinel and exactly `N` calls for every
stub that never emits the marker) is false. -/
theorem C1_iteration_limit_counterexample :
    exC1bad.max_iterations = 2
      ∧ containsSub finalAnswerMarker "hello".data = false
      ∧ AgentExecutor.invoke exC1bad [("input", "q")]
          = "Agent failed to produce a valid action or final answer."
      ∧ (AgentExecutor.invokeTrace exC1bad [("input", "q")]).2.length = 1
      ∧ "Agent failed to produce a valid action or final answer."
          ≠ "Agent stopped after reaching max iterations." :=
  ⟨rfl, by decide, by decide, by decide, by decide⟩

/-- C1 (amended): for every executor and every chat-model stub whose replies
never contain a `Final Answer:` marker AND always parse as an
`Action:`/`Action Input:` request, `invoke` performs exactly
`max_iterations` chat-model calls and returns the fixed iteration-limit
sentinel as a normal return value. -/
theorem C1_iteration_limit (ex : AgentExecutor) (input : List (String × String))
    (h : ∀ (n : Nat) (msgs : List Message),
        finalAnswerParse (ex.llm n msgs).data = none
          ∧ (actionParse (ex.llm n msgs).data).isSome = true) :
    ex.invoke input = "Agent stopped after reaching max iterations."
      ∧ (ex.invokeTrace input).2.length = ex.max_iterations := by
  have h2 := loop_all_action_sentinel ex (dictGet input "input")
    (String.intercalate ", " (ex.tools.map BaseTool.name)) (formatTools ex.tools)
    (ex.system_prompt.getD DEFAULT_AGENT_PROMPT_TEMPLATE) h ex.max_iterations 0 "" []
  exact ⟨h2.1, by simpa using h2.2⟩

/-- C1 witness: the always-action stub on `max_iterations = 3` makes exactly
3 calls and gets the sentinel. -/
theorem C1_iteration_limit_witness :
    AgentExecutor.invoke exC1act [("input", "q")]
        = "Agent stopped after reaching max iterations."
      ∧ (AgentExecutor.invokeTrace exC1act [("input", "q")]).2.length = 3 :=
  C1_iteration_limit exC1act [("input", "q")]
    (fun _ _ =>
      ⟨(by decide : finalAnswerParse "Action: search\nAction Input: q".data = none),
       (by decide : (actionParse "Action: search\nAction Input: q".data).isSome = true)⟩)

set_option maxRecDepth 40000 in
/-- C2: a reply containing a `Final Answer:` marker makes the loop return
exactly the text after the first marker occurrence, trimmed of surrounding
whitespace, and this branch is checked before the action branch; concretely
the constant stub `"Final Answer: 42"` makes
`invoke({"input": "anything"})` return exactly `"42"`, and a reply carrying
both an action request and a final answer still returns `"42"` after one
single model call. -/
theorem C2_final_answer_precedence :
    (∀ (ex : AgentExecutor) (u tn ts tpl : String) (fuel ci : Nat) (scratch : String)
        (prompts : List String) (ans : List Char),
        (∀ msgs, finalAnswerParse (ex.llm ci msgs).data = some ans) →
        (AgentExecutor.loop ex u tn ts tpl (fuel + 1) ci scratch prompts).1 = String.mk ans)
      ∧ (∀ (l : List Char) (i : Nat), firstOcc finalAnswerMarker l = some i →
          finalAnswerParse l = some (pyStrip (l.drop (i + 13))))
      ∧ AgentExecutor.invoke exC2 [("input", "anything")] = "42"
      ∧ AgentExecutor.invoke exC2both [("input", "q")] = "42"
      ∧ (AgentExecutor.invokeTrace exC2both [("input", "q")]).2.length = 1 := by
  refine ⟨?_, ?_, by decide, by decide, by decide⟩
  · intro ex u tn ts tpl fuel ci scratch prompts ans h
    rw [loop_step_final ex u tn ts tpl fuel ci scratch prompts ans (h _)]
  · intro l i h
    simp [finalAnswerParse, h]

/-- C2 witness: the final-answer branch instantiated on the concrete `42`
stub and on the concrete marker string. -/
theorem C2_final_answer_precedence_witness :
    (AgentExecutor.loop exC2 "anything" "" "" "" 1 0 "" []).1 = String.mk "42".data
      ∧ finalAnswerParse "Final Answer: 42".data
          = some (pyStrip ("Final Answer: 42".data.drop (0 + 13))) :=
  ⟨C2_final_answer_precedence.1 exC2 "anything" "" "" "" 0 0 "" [] "42".data
      (fun _ =>
        (by decide : finalAnswerParse "Final Answer: 42".data = some "42".data)),
   C2_final_answer_precedence.2.1 "Final Answer: 42".data 0 (by decide)⟩

set_option maxRecDepth 100000 in
/-- C3: with the stub replying `"Action: echo\nAction Input: hi"` then
`"Final Answer: done"` and the registered verbatim `echo` tool, `invoke`
makes exactly 2 model calls, the scratch-pad rendered into the second prompt
contains the literal substring `"Observation: hi"`, and — in general — a
successful dispatch appends exactly
`raw output + "\nObservation: " + observation + "\n"` to the scratchpad. -/
theorem C3_scratchpad_observation :
    (exC3.invokeTrace [("input", "q")]).1 = "done"
      ∧ (exC3.invokeTrace [("input", "q")]).2.length = 2
      ∧ containsSub "Observation: hi".data
          ((exC3.invokeTrace [("input", "q")]).2.getD 1 "").data = true
      ∧ containsSub "Action: echo\nAction Input: hi\nObservation: hi\n".data
          ((exC3.invokeTrace [("input", "q")]).2.getD 1 "").data = true
      ∧ (∀ (ex : AgentExecutor) (u tn ts tpl : String) (fuel ci : Nat) (scratch : String)
          (prompts : List String) (nm inp : List Char) (tool : BaseTool) (obs : String),
          finalAnswerParse (ex.llm ci [SystemMessage "You are an AI agent.",
              HumanMessage (formatPrompt tpl ts tn u scratch)]).data = none →
          actionParse (ex.llm ci [SystemMessage "You are an AI agent.",
              HumanMessage (formatPrompt tpl ts tn u scratch)]).data = some (nm, inp) →
          getToolByName ex.tools (String.mk nm) = some tool →
          tool.run (String.mk inp) = Except.ok obs →
          AgentExecutor.loop ex u tn ts tpl (fuel + 1) ci scratch prompts
            = AgentExecutor.loop ex u tn ts tpl fuel (ci + 1)
                (scratch
                  ++ ex.llm ci [SystemMessage "You are an AI agent.",
                      HumanMessage (formatPrompt tpl ts tn u scratch)]
                  ++ "\nObservation: " ++ obs ++ "\n")
                (formatPrompt tpl ts tn u scratch :: prompts)) := by
  refine ⟨by decide, by decide, by decide, by decide, ?_⟩
  intro ex u tn ts tpl fuel ci scratch prompts nm inp tool obs hf ha ht hr
  exact loop_step_action_ok ex u tn ts tpl fuel ci scratch prompts nm inp tool obs hf ha ht hr

/-- C3 witness: the scratchpad-append equation instantiated on the concrete
`echo` dispatch. -/
theorem C3_scratchpad_observation_witness :
    AgentExecutor.loop exC3 "q" "" "" "" 1 0 "" []
      = AgentExecutor.loop exC3 "q" "" "" "" 0 1
          ("" ++ exC3.llm 0 [SystemMessage "You are an AI agent.",
              HumanMessage (formatPrompt "" "" "" "q" "")]
            ++ "\nObservation: " ++ "hi" ++ "\n")
          [formatPrompt "" "" "" "q" ""] :=
  C3_scratchpad_observation.2.2.2.2 exC3 "q" "" "" "" 0 0 "" [] "echo".data "hi".data echoTool
    "hi" (by decide) (by decide) rfl rfl

/-- C4: tool dispatch never escapes the loop: an unregistered action name
yields an observation containing `"not found"` and the loop proceeds — with
remaining budget, to a further model call; a tool whose wrapped function
raises yields the explicit `"Error executing tool ...: ..."` observation and
the loop likewise proceeds.  In both cases the step reduces to the next loop
iteration with the error text folded into the scratchpad (the dispatch is a
total function, mirroring the `try/except` and the not-found branch of
`invoke`). -/
theorem C4_dispatch_contained :
    (∀ (ex : AgentExecutor) (u tn ts tpl : String) (fuel ci : Nat) (scratch : String)
        (prompts : List String) (nm inp : List Char),
        (∀ msgs, finalAnswerParse (ex.llm ci msgs).data = none) →
        (∀ msgs, actionParse (ex.llm ci msgs).data = some (nm, inp)) →
        getToolByName ex.tools (String.mk nm) = none →
          containsSub "not found".data
              ("Error: Tool \x27" ++ String.mk nm ++ "\x27 not found.").data = true
          ∧ AgentExecutor.loop ex u tn ts tpl (fuel + 1) ci scratch prompts
              = AgentExecutor.loop ex u tn ts tpl fuel (ci + 1)
                  (scratch
                    ++ ex.llm ci [SystemMessage "You are an AI agent.",
                        HumanMessage (formatPrompt tpl ts tn u scratch)]
                    ++ "\nObservation: "
                    ++ ("Error: Tool \x27" ++ String.mk nm ++ "\x27 not found.") ++ "\n")
                  (formatPrompt tpl ts tn u scratch :: prompts)
          ∧ prompts.length + 2
              ≤ (AgentExecutor.loop ex u tn ts tpl (fuel + 1 + 1) ci scratch prompts).2.length)
      ∧ (∀ (ex : AgentExecutor) (u tn ts tpl : String) (fuel ci : Nat) (scratch : String)
          (prompts : List String) (nm inp : List Char) (tool : BaseTool) (e : String),
          (∀ msgs, finalAnswerParse (ex.llm ci msgs).data = none) →
          (∀ msgs, actionParse (ex.llm ci msgs).data = some (nm, inp)) →
          getToolByName ex.tools (String.mk nm) = some tool →
          tool.run (String.mk inp) = Except.error e →
            AgentExecutor.loop ex u tn ts tpl (fuel + 1) ci scratch prompts
                = AgentExecutor.loop ex u tn ts tpl fuel (ci + 1)
                    (scratch
                      ++ ex.llm ci [SystemMessage "You are an AI agent.",
                          HumanMessage (formatPrompt tpl ts tn u scratch)]
                      ++ "\nObservation: "
                      ++ ("Error executing tool " ++ String.mk nm ++ ": " ++ e) ++ "\n")
                    (formatPrompt tpl ts tn u scratch :: prompts)
            ∧ prompts.length + 2
                ≤ (AgentExecutor.loop ex u tn ts tpl (fuel + 1 + 1) ci scratch prompts).2.length) := by
  constructor
  · intro ex u tn ts tpl fuel ci scratch prompts nm inp hfa hac hnf
    refine ⟨?_,
      loop_step_action_notfound ex u tn ts tpl fuel ci scratch prompts nm inp
        (hfa _) (hac _) hnf, ?_⟩
    · have hd : ("Error: Tool \x27" ++ String.mk nm ++ "\x27 not found.").data
          = ("Error: Tool \x27" ++ String.mk nm).data ++ "\x27 not found.".data := rfl
      rw [hd]
      exact containsSub_append_right _ _ _ (by decide)
    · rw [loop_step_action_notfound ex u tn ts tpl (fuel + 1) ci scratch prompts nm inp
        (hfa _) (hac _) hnf]
      calc prompts.length + 2
          = (formatPrompt tpl ts tn u scratch :: prompts).length + 1 := by
            simp only [List.length_cons]
        _ ≤ _ := loop_trace_length_succ_le ex u tn ts tpl fuel (ci + 1) _ _
  · intro ex u tn ts tpl fuel ci scratch prompts nm inp tool e hfa hac ht hr
    refine ⟨loop_step_action_error ex u tn ts tpl fuel ci scratch prompts nm inp tool e
      (hfa _) (hac _) ht hr, ?_⟩
    rw [loop_step_action_error ex u tn ts tpl (fuel + 1) ci scratch prompts nm inp tool e
      (hfa _) (hac _) ht hr]
    calc prompts.length + 2
        = (formatPrompt tpl ts tn u scratch :: prompts).length + 1 := by
          simp only [List.length_cons]
      _ ≤ _ := loop_trace_length_succ_le ex u tn ts tpl fuel (ci + 1) _ _

/-- C4 witness: the not-found branch on the `missing_tool` stub and the
raising branch on the `boom` stub, each followed by a further model call. -/
theorem C4_dispatch_contained_witness :
    containsSub "not found".data
        ("Error: Tool \x27" ++ String.mk "missing_tool".data ++ "\x27 not found.").data = true
      ∧ 2 ≤ (AgentExecutor.loop exC4miss "q" "" "" "" 2 0 "" []).2.length
      ∧ 2 ≤ (AgentExecutor.loop exC4fail "q" "" "" "" 2 0 "" []).2.length :=
  ⟨(C4_dispatch_contained.1 exC4miss "q" "" "" "" 0 0 "" [] "missing_tool".data "z".data
      (fun _ =>
        (by decide : finalAnswerParse "Action: missing_tool\nAction Input: z".data = none))
      (fun _ =>
        (by decide : actionParse "Action: missing_tool\nAction Input: z".data
          = some ("missing_tool".data, "z".data)))
      rfl).1,
   (C4_dispatch_contained.1 exC4miss "q" "" "" "" 0 0 "" [] "missing_tool".data "z".data
      (fun _ =>
        (by decide : finalAnswerParse "Action: missing_tool\nAction Input: z".data = none))
      (fun _ =>
        (by decide : actionParse "Action: missing_tool\nAction Input: z".data
          = some ("missing_tool".data, "z".data)))
      rfl).2.2,
   (C4_dispatch_contained.2 exC4fail "q" "" "" "" 0 0 "" [] "boom".data "z".data failTool
      "ValueError: kaboom"
      (fun _ => (by decide : finalAnswerParse "Action: boom\nAction Input: z".data = none))
      (fun _ =>
        (by decide : actionParse "Action: boom\nAction Input: z".data
          = some ("boom".data, "z".data)))
      rfl rfl).2⟩

/-- C5: the malformed-output policy is uniform: every reply matching neither
the final-answer pattern nor the action pattern makes the loop return the
one fixed failure string
`"Agent failed to produce a valid action or final answer."` as a normal
return value, for every executor, scratchpad and call index. -/
theorem C5_malformed_fallback :
    (∀ (ex : AgentExecutor) (u tn ts tpl : String) (fuel ci : Nat) (scratch : String)
        (prompts : List String),
        (∀ msgs, finalAnswerParse (ex.llm ci msgs).data = none) →
        (∀ msgs, actionParse (ex.llm ci msgs).data = none) →
        AgentExecutor.loop ex u tn ts tpl (fuel + 1) ci scratch prompts
          = ("Agent failed to produce a valid action or final answer.",
              (formatPrompt tpl ts tn u scratch :: prompts).reverse))
      ∧ (∀ (ex : AgentExecutor) (input : List (String × String)),
          1 ≤ ex.max_iterations →
          (∀ msgs, finalAnswerParse (ex.llm 0 msgs).data = none) →
          (∀ msgs, actionParse (ex.llm 0 msgs).data = none) →
          ex.invoke input = "Agent failed to produce a valid action or final answer.") := by
  constructor
  · intro ex u tn ts tpl fuel ci scratch prompts hf ha
    exact loop_step_malformed ex u tn ts tpl fuel ci scratch prompts (hf _) (ha _)
  · intro ex input hmax hf ha
    obtain ⟨m, hm⟩ : ∃ m, ex.max_iterations = m + 1 := ⟨ex.max_iterations - 1, by omega⟩
    show (AgentExecutor.loop ex (dictGet input "input")
        (String.intercalate ", " (ex.tools.map BaseTool.name)) (formatTools ex.tools)
        (ex.system_prompt.getD DEFAULT_AGENT_PROMPT_TEMPLATE) ex.max_iterations 0 "" []).1
        = "Agent failed to produce a valid action or final answer."
    rw [hm, loop_step_malformed _ _ _ _ _ _ _ _ _ (hf _) (ha _)]

/-- C5 witness: the fallback on a stub whose reply matches neither
pattern. -/
theorem C5_malformed_fallback_witness :
    AgentExecutor.invoke exC5 [("input", "q")]
      = "Agent failed to produce a valid action or final answer." :=
  C5_malformed_fallback.2 exC5 [("input", "q")] (by decide)
    (fun _ => (by decide : finalAnswerParse "I am not sure what to do.".data = none))
    (fun _ => (by decide : actionParse "I am not sure what to do.".data = none))

set_option maxRecDepth 40000 in
/-- C6 counterexample: on the reply
`"Action: echo\nAction Input: hi\nObservation: leaked"` the parser yields
the action input `"hi\nObservation: leaked"`, which runs past the present
`"Observation:"` marker to the end of the text; the claim, as stated, would
require the input to end before the marker, i.e. be `"hi"`. -/
theorem C6_action_input_counterexample :
    actionParse "Action: echo\nAction Input: hi\nObservation: leaked".data
        = some ("echo".data, "hi\nObservation: leaked".data)
      ∧ containsSub "Observation:".data "hi\nObservation: leaked".data = true
      ∧ actionParse "Action: echo\nAction Input: hi\nObservation: leaked".data
          ≠ some ("echo".data, "hi".data) :=
  ⟨by decide, by decide, by decide⟩

/-- C6 (amended): when a reply matches the action pattern, the parsed action
name is the trimmed text between the `Action:` marker and the
`\nAction Input:` separator the backtracking selects, and the parsed action
input is the trimmed text extending from after that separator to the END of
the reply — it does not stop at an `Observation:` marker. -/
theorem C6_action_input_to_end :
    ∀ (l nm inp : List Char),
      actionParse l = some (nm, inp) →
      ∃ i o, nm = pyStrip ((l.drop (i + 7)).take o)
        ∧ inp = pyStrip ((l.drop (i + 7)).drop (o + 14))
        ∧ (l.drop (i + 7)).drop (o + 14) = l.drop (i + 7 + (o + 14)) := by
  intro l nm inp h
  unfold actionParse at h
  cases hs : actionStartAux l 0 with
  | none => simp [hs] at h
  | some i =>
    simp only [hs] at h
    rw [Option.some.injEq, Prod.ext_iff] at h
    obtain ⟨h1, h2⟩ := h
    exact ⟨i, _, h1.symm, h2.symm, List.drop_drop _ _ _⟩

set_option maxRecDepth 40000 in
/-- C6 witness: the amended description instantiated on the counterexample
reply. -/
theorem C6_action_input_to_end_witness :
    ∃ i o,
      "echo".data = pyStrip
          (("Action: echo\nAction Input: hi\nObservation: leaked".data.drop (i + 7)).take o)
        ∧ "hi\nObservation: leaked".data = pyStrip
            (("Action: echo\nAction Input: hi\nObservation: leaked".data.drop (i + 7)).drop
              (o + 14))
        ∧ ("Action: echo\nAction Input: hi\nObservation: leaked".data.drop (i + 7)).drop (o + 14)
            = "Action: echo\nAction Input: hi\nObservation: leaked".data.drop (i + 7 + (o + 14)) :=
  C6_action_input_to_end "Action: echo\nAction Input: hi\nObservation: leaked".data
    "echo".data "hi\nObservation: leaked".data (by decide)

/-- C7: a window memory holds at most `2·k` stored messages after every
`save_context` (for every `k`, in particular every `k ≥ 1`, and from any
prior history); for `k ≥ 1`, `load_memory_variables` returns the suffix of
the stored history past `length - 2·k` — the most recent messages in
insertion order; and a `Window(k=2)` memory holding three saved turns stores
exactly the 4 messages of the last two turns, returns exactly them from
`load_memory_variables`, and never the first turn. -/
theorem C7_window_memory :
    (∀ (k : Nat) (hist : List Message) (inputs outputs : List (String × String)),
        (windowSaveContext k hist inputs outputs).length ≤ 2 * k)
      ∧ (∀ (k : Nat) (hist : List Message), 1 ≤ k →
          windowLoadMemoryVariables k hist
            = [("history", hist.drop (hist.length - 2 * k))])
      ∧ windowSaveContext 2
          (windowSaveContext 2
            (windowSaveContext 2 [] [("input", "u1")] [("output", "a1")])
            [("input", "u2")] [("output", "a2")])
          [("input", "u3")] [("output", "a3")]
          = [HumanMessage "u2", AIMessage "a2", HumanMessage "u3", AIMessage "a3"]
      ∧ windowLoadMemoryVariables 2
          [HumanMessage "u2", AIMessage "a2", HumanMessage "u3", AIMessage "a3"]
          = [("history",
              [HumanMessage "u2", AIMessage "a2", HumanMessage "u3", AIMessage "a3"])]
      ∧ HumanMessage "u1" ∉
          [HumanMessage "u2", AIMessage "a2", HumanMessage "u3", AIMessage "a3"] := by
  refine ⟨?_, ?_, by decide, by decide, by decide⟩
  · intro k hist inputs outputs
    have h := trimWindow_length_le k
      (memAppendTurn hist (firstValue inputs) (firstValue outputs))
    simp only [windowSaveContext]
    omega
  · intro k hist hk
    have hz : ¬ (k * 2 = 0) := by omega
    simp only [windowLoadMemoryVariables, pyNegSlice, if_neg hz]
    rw [Nat.mul_comm k 2]

/-- C7 witness: the load equation instantiated on the four stored
messages at `k = 2`. -/
theorem C7_window_memory_witness :
    windowLoadMemoryVariables 2
        [HumanMessage "u2", AIMessage "a2", HumanMessage "u3", AIMessage "a3"]
      = [("history",
          ([HumanMessage "u2", AIMessage "a2", HumanMessage "u3",
            AIMessage "a3"] : List Message).drop
            (([HumanMessage "u2", AIMessage "a2", HumanMessage "u3",
              AIMessage "a3"] : List Message).length - 2 * 2))] :=
  C7_window_memory.2.1 2
    [HumanMessage "u2", AIMessage "a2", HumanMessage "u3", AIMessage "a3"] (by decide)

set_option maxRecDepth 100000 in
/-- C8 counterexample: an executor whose tools list holds two tools both
named `dup` is a perfectly well-formed value — `executor.py` contains no
uniqueness validation, pydantic checks field types only — and `invoke` then
runs the loop normally: two model calls, dispatch to the FIRST tool named
`dup` (its observation reaches the second prompt), final answer `done`; no
configuration error exists at construction or inside the loop, contrary to
the claim. -/
theorem C8_duplicate_tools_counterexample :
    exC8.tools.map BaseTool.name = ["dup", "dup"]
      ∧ AgentExecutor.invoke exC8 [("input", "q")] = "done"
      ∧ (AgentExecutor.invokeTrace exC8 [("input", "q")]).2.length = 2
      ∧ (getToolByName exC8.tools "dup").map BaseTool.description = some "first registration"
      ∧ containsSub "Observation: from-first".data
          ((AgentExecutor.invokeTrace exC8 [("input", "q")]).2.getD 1 "").data = true :=
  ⟨by decide, by decide, by decide, by decide, by decide⟩

/-- C8 (amended): duplicate tool names are accepted — construction performs
no uniqueness check — and `_get_tool_by_name` is a linear scan returning the
first tool whose name matches, so the earlier registration shadows later
duplicates. -/
theorem C8_duplicate_tools_first_wins :
    (∀ (t : BaseTool) (ts : List BaseTool) (nm : String), t.name = nm →
        getToolByName (t :: ts) nm = some t)
      ∧ (getToolByName exC8.tools "dup").map BaseTool.description
          = some "first registration" := by
  refine ⟨?_, by decide⟩
  intro t ts nm h
  simp [getToolByName, h]

/-- C8 witness: first-match lookup on the duplicated registry. -/
theorem C8_duplicate_tools_first_wins_witness :
    getToolByName [dupToolA, dupToolB] "dup" = some dupToolA :=
  C8_duplicate_tools_first_wins.1 dupToolA [dupToolB] "dup" rfl

/-- C9: `invoke` never writes to the executor: in the state-passing
embedding of the method call the receiver after the call equals the receiver
before it — each of `llm`, `tools`, `system_prompt`, `max_iterations`
unchanged; every call enters the loop with an empty scratchpad and call
count 0; and two sequential calls on the same instance return identical
results and leave the instance equal to the original. -/
theorem C9_invoke_frame (ex : AgentExecutor) (input : List (String × String)) :
    (ex.invokeStep input).2 = ex
      ∧ (ex.invokeStep input).2.llm = ex.llm
      ∧ (ex.invokeStep input).2.tools = ex.tools
      ∧ (ex.invokeStep input).2.system_prompt = ex.system_prompt
      ∧ (ex.invokeStep input).2.max_iterations = ex.max_iterations
      ∧ ex.invokeTrace input
          = AgentExecutor.loop ex (dictGet input "input")
              (String.intercalate ", " (ex.tools.map BaseTool.name)) (formatTools ex.tools)
              (ex.system_prompt.getD DEFAULT_AGENT_PROMPT_TEMPLATE) ex.max_iterations 0 "" []
      ∧ ((ex.invokeStep input).2.invokeStep input).1 = (ex.invokeStep input).1
      ∧ ((ex.invokeStep input).2.invokeStep input).2 = ex :=
  ⟨rfl, rfl, rfl, rfl, rfl, rfl, rfl, rfl⟩

/-- C10 (evaluating the code at the failing input): with two freshly
constructed `ConversationBufferMemory` instances, `save_context` on the
first changes what the second's `load_memory_variables` returns — both
instances resolve `self.chat_history` to the single class-level list — so
instance histories are not independent and a freshly constructed instance
need not see an empty history. -/
theorem C10_shared_class_history :
    bufLoadMemoryVariables twoFreshBuffers 1 = [("history", [])]
      ∧ bufLoadMemoryVariables
          (bufSaveContext twoFreshBuffers 0 [("input", "hi")] [("output", "yo")]) 1
          = [("history", [HumanMessage "hi", AIMessage "yo"])]
      ∧ bufLoadMemoryVariables
          (bufSaveContext twoFreshBuffers 0 [("input", "hi")] [("output", "yo")]) 1
          ≠ [("history", [])] :=
  ⟨by decide, by decide, by decide⟩

end MyFramework
